import Mathlib

/-!
Shallow embedding of the greenify-magic-sprout issue reporting core:
the priority scorer and submit transition of `ReportIssue.tsx`, and the
dashboard reads (reporter issue list, top-citizens leaderboard) of the
citizen dashboard component.  JavaScript numbers are modelled as exact
arithmetic (`Int` for XP points, `ℚ` for the priority rating);
`Math.round` is `round` (for every x, `Math.round(x)` is the floor of
x + 1/2, which is exactly Mathlib's `round`); ECMAScript's stable
`Array.prototype.sort` is `List.mergeSort`.  Values that may be `null` /
`undefined` / absent in the stored JSON are modelled with `Option`, and
a member access that throws a `TypeError` inside a `try` block is
modelled by the `catch` branch of the embedded function.
-/

namespace Greenify

/-- Embeds the first line of `calculatePriorityRating`
(`src/src/pages/ReportIssue.tsx`):
`severity === 'high' ? 3 : severity === 'medium' ? 2 : 1`. -/
def severityScore (severity : String) : ℚ :=
  if severity = "high" then 3 else if severity = "medium" then 2 else 1

/-- Embeds the second line of `calculatePriorityRating`:
`Math.min(description.length / 100, 2)`. -/
def descriptionScore (description : String) : ℚ :=
  min ((description.length : ℚ) / 100) 2

/-- Embeds `calculatePriorityRating` from `src/src/pages/ReportIssue.tsx`:
`Math.round((severityScore + descriptionScore) * 10) / 10`. -/
def calculatePriorityRating (severity description : String) : ℚ :=
  ((round ((severityScore severity + descriptionScore description) * 10) : ℤ) : ℚ) / 10

/-- Reference scorer following the specification text, for the refinement
claim: the severity score is a keyed lookup `low ↦ 1, medium ↦ 2, high ↦ 3`
defined only on those three severities; the description score is
`min(len(description)/100, 2.0)`; the rating is
`round((severityScore + descriptionScore) * 10) / 10`. -/
def specScore (severity description : String) : Option ℚ :=
  (match severity with
    | "low" => some (1 : ℚ)
    | "medium" => some 2
    | "high" => some 3
    | _ => none).map
    (fun s => ((round ((s + min ((description.length : ℚ) / 100) 2) * 10) : ℤ) : ℚ) / 10)

/-- A description consisting of `L` copies of the character x (the
specification's `"x"*L`). -/
def xRepeat (L : Nat) : String := String.mk (List.replicate L 'x')

/-- An issue record as written by `handleSubmit` and read back by the
dashboard.  Nullable fields are `Option`s. -/
structure Issue where
  id : String
  title : String
  description : String
  status : String
  severity : String
  location : String
  reporter_id : String
  image_url : Option String
  created_at : String
  solver_id : Option String
  solution_image_url : Option String
  solved_at : Option String
  priorityRating : ℚ
deriving DecidableEq

/-- A user record of the `usersData` blob (`citizens` entry). -/
structure User where
  id : String
  email : String
  name : String
  type : String
  xp_points : Int
deriving DecidableEq

/-- The state `handleSubmit` reads and writes: the `issues` field of the
parsed `issuesData` blob (absent when the blob has no `issues` key) and
the reporter's XP balance (`user.xp_points`). -/
structure StoreState where
  issuesData : Option (List Issue)
  xp_points : Int
deriving DecidableEq

/-- The form fields of a submission attempt. -/
structure SubmitInput where
  title : String
  description : String
  severity : String
  location : String
  verified : Bool
deriving DecidableEq

/-- Values `handleSubmit` obtains from the environment: the result of
`Math.random().toString()`, the optional object URL of the attached image,
`new Date().toISOString()`, and the reporter's user id. -/
structure SubmitEnv where
  newId : String
  imageUrl : Option String
  createdAt : String
  reporterId : String
deriving DecidableEq

/-- Embeds the `newIssue` object literal of `handleSubmit`. -/
def mkNewIssue (inp : SubmitInput) (env : SubmitEnv) : Issue :=
  { id := env.newId
    title := inp.title
    description := inp.description
    status := "pending"
    severity := inp.severity
    location := inp.location
    reporter_id := env.reporterId
    image_url := env.imageUrl
    created_at := env.createdAt
    solver_id := none
    solution_image_url := none
    solved_at := none
    priorityRating := calculatePriorityRating inp.severity inp.description }

/-- Embeds the JavaScript expression `x || 0` on a number: `0` is the only
falsy numeric value (`NaN` aside), so the expression is `x` unless `x = 0`. -/
def jsOrZero (x : Int) : Int := if x = 0 then 0 else x

/-- Outcome of a submission attempt, carrying the resulting store state.
`validationError` is the early `return` after the destructive
"Missing fields" toast; `submitted` is the success path. -/
inductive SubmitResult where
  | validationError (st : StoreState)
  | submitted (st : StoreState)
deriving DecidableEq

/-- Embeds `handleSubmit` from `src/src/pages/ReportIssue.tsx`:
`if (!title || !description || !severity || !verified || !location)` the
handler returns after showing the validation toast, touching nothing;
otherwise it builds `newIssue`, writes
`issues: [...(existingData.issues || []), newIssue]` back to the store
and sets the XP balance to `(user?.xp_points || 0) + 50`. -/
def handleSubmit (st : StoreState) (inp : SubmitInput) (env : SubmitEnv) : SubmitResult :=
  if inp.title = "" ∨ inp.description = "" ∨ inp.severity = "" ∨
      inp.verified = false ∨ inp.location = "" then
    .validationError st
  else
    .submitted
      { issuesData := some (st.issuesData.getD [] ++ [mkNewIssue inp env])
        xp_points := jsOrZero st.xp_points + 50 }

/-- Extracts the store state from a submission outcome. -/
def stepState : SubmitResult → StoreState
  | .validationError st => st
  | .submitted st => st

/-- The stored blobs the dashboard reads: the `issues` field of
`issuesData` and the `citizens` field of `usersData`; either field may be
absent from the parsed JSON. -/
structure DashboardData where
  issues : Option (List Issue)
  citizens : Option (List User)
deriving DecidableEq

/-- Embeds the dashboard filter
`data.issues.filter((issue) => issue.reporter_id === user?.id)`. -/
def listByReporter (issues : List Issue) (uid : String) : List Issue :=
  issues.filter (fun issue => decide (issue.reporter_id = uid))

/-- The comparator `(a, b) => b.xp_points - a.xp_points` of the dashboard
sort: `a` sorts no later than `b` exactly when the comparator is ≤ 0. -/
def citizenLE (a b : User) : Bool := decide (b.xp_points ≤ a.xp_points)

/-- Embeds the dashboard leaderboard computation
`[...storedData.citizens].sort((a, b) => b.xp_points - a.xp_points).slice(0, 5)`
(ECMAScript `sort` is required to be stable; the spread copies the array
first). -/
def topCitizens (citizens : List User) : List User :=
  (citizens.mergeSort citizenLE).take 5

/-- Embeds the body of the dashboard `fetchIssues` together with its
`try`/`catch`.  The pair is the final content of the two React state cells
(`issues`, `topCitizens`), both initially `[]`; the flag records whether a
`TypeError` was thrown and caught.  When the stored blob has no `issues`
field, `data.issues.filter` throws before either `set` call; when only
`citizens` is absent, `setIssues` has already run and the spread
`[...storedData.citizens]` throws before `setTopCitizens`. -/
def fetchIssues (store : DashboardData) (uid : String) :
    (List Issue × List User) × Bool :=
  match store.issues with
  | none => (([], []), true)
  | some issues =>
    let userIssues := listByReporter issues uid
    match store.citizens with
    | none => ((userIssues, []), true)
    | some cs => ((userIssues, topCitizens cs), false)

/-- The dashboard fetch as a store-passing operation: it only reads
`localStorage`, so the store it hands back is the store it was given. -/
def fetchIssuesRead (store : DashboardData) (uid : String) :
    ((List Issue × List User) × Bool) × DashboardData :=
  (fetchIssues store uid, store)


/-- A concrete stored issue used in concrete instantiations. -/
def wIssue : Issue :=
  { id := "i1", title := "Pothole", description := "Large pothole near the school",
    status := "pending", severity := "low", location := "12, 77",
    reporter_id := "u1", image_url := none, created_at := "2025-01-01",
    solver_id := none, solution_image_url := none, solved_at := none,
    priorityRating := 1 }

/-- A concrete well-formed submission. -/
def wInp : SubmitInput :=
  { title := "Pothole", description := "deep", severity := "low",
    location := "12, 77", verified := true }

/-- A second concrete well-formed submission. -/
def wInpB : SubmitInput :=
  { title := "Leak", description := "pipe", severity := "high",
    location := "10, 76", verified := true }

/-- A concrete submission with an empty title. -/
def wInpBad : SubmitInput :=
  { title := "", description := "deep", severity := "low",
    location := "12, 77", verified := true }

/-- A concrete environment in which `Math.random().toString()` yields "0.5". -/
def wEnv : SubmitEnv :=
  { newId := "0.5", imageUrl := none, createdAt := "2025-01-01", reporterId := "u1" }

/-- A concrete initial store state. -/
def wSt : StoreState := { issuesData := none, xp_points := 0 }

/-- A concrete citizen. -/
def wUser : User :=
  { id := "u1", email := "a@b.c", name := "Asha", type := "citizen", xp_points := 50 }

/-- Helper: the XP update expression `(user?.xp_points || 0) + 50` adds
exactly 50 to any integer balance. -/
theorem jsOrZero_add_50 (x : Int) : jsOrZero x + 50 = x + 50 := by
  unfold jsOrZero; split <;> omega

/-- Helper: the length of the repeated description is its repetition count. -/
theorem xRepeat_length (L : Nat) : (xRepeat L).length = L := by
  simp [xRepeat, String.length]

/-- Helper: the description score of x repeated L times. -/
theorem descriptionScore_xRepeat (L : Nat) :
    descriptionScore (xRepeat L) = min ((L : ℚ) / 100) 2 := by
  rw [descriptionScore, xRepeat_length]

/-- Helper: rounding is monotone on the rationals. -/
theorem round_mono_rat {x y : ℚ} (h : x ≤ y) : round x ≤ round y := by
  rw [round_eq, round_eq]
  exact Int.floor_le_floor (by linarith)

/-- Helper: the rating of a high-severity empty-description report is 3.0. -/
theorem rating_value_high : calculatePriorityRating "high" "" = 3 := by
  have h0 : descriptionScore "" = 0 := by
    rw [descriptionScore]
    norm_num [min_def]
  rw [calculatePriorityRating, h0]
  norm_num [severityScore, round_ofNat]

/-- Helper: the rating of a low-severity empty-description report is 1.0. -/
theorem rating_value_low : calculatePriorityRating "low" "" = 1 := by
  have h0 : descriptionScore "" = 0 := by
    rw [descriptionScore]
    norm_num [min_def]
  have h1 : severityScore "low" = 1 := by decide
  rw [calculatePriorityRating, h0, h1]
  norm_num [round_ofNat]

/-- Helper: the rating of a medium-severity report with a 50-character
description is 2.5. -/
theorem rating_value_medium :
    calculatePriorityRating "medium" (xRepeat 50) = 5 / 2 := by
  have h0 : descriptionScore (xRepeat 50) = 1 / 2 := by
    rw [descriptionScore_xRepeat]
    norm_num [min_def]
  have h1 : severityScore "medium" = 2 := by decide
  rw [calculatePriorityRating, h0, h1]
  norm_num [round_ofNat]

/-- Helper: the dashboard sort comparator is transitive. -/
theorem citizenLE_trans : ∀ a b c : User, citizenLE a b → citizenLE b c → citizenLE a c := by
  intro a b c hab hbc
  simp only [citizenLE, decide_eq_true_eq] at *
  omega

/-- Helper: the dashboard sort comparator is total. -/
theorem citizenLE_total : ∀ a b : User, citizenLE a b || citizenLE b a := by
  intro a b
  simp only [citizenLE, Bool.or_eq_true, decide_eq_true_eq]
  omega

/-- Claim C1: for every submission whose required fields (title,
description, severity, location) are non-empty and whose verified flag is
true, submit appends exactly one new Issue to the store — with status
"pending", solver id null and solved-at null — and increases the
reporter's XP balance by exactly 50. -/
theorem submit_valid_appends_pending_adds_50
    (st : StoreState) (inp : SubmitInput) (env : SubmitEnv)
    (ht : inp.title ≠ "") (hd : inp.description ≠ "")
    (hsev : inp.severity ≠ "") (hl : inp.location ≠ "")
    (hv : inp.verified = true) :
    handleSubmit st inp env =
      .submitted { issuesData := some (st.issuesData.getD [] ++ [mkNewIssue inp env])
                   xp_points := st.xp_points + 50 } ∧
    (mkNewIssue inp env).status = "pending" ∧
    (mkNewIssue inp env).solver_id = none ∧
    (mkNewIssue inp env).solved_at = none := by
  refine ⟨?_, rfl, rfl, rfl⟩
  rw [handleSubmit, if_neg (by simp [ht, hd, hsev, hl, hv]), jsOrZero_add_50]

/-- Witness for claim C1 at a concrete store, submission and environment. -/
theorem submit_valid_witness :
    handleSubmit wSt wInp wEnv =
      .submitted { issuesData := some (wSt.issuesData.getD [] ++ [mkNewIssue wInp wEnv])
                   xp_points := wSt.xp_points + 50 } ∧
    (mkNewIssue wInp wEnv).status = "pending" ∧
    (mkNewIssue wInp wEnv).solver_id = none ∧
    (mkNewIssue wInp wEnv).solved_at = none :=
  submit_valid_appends_pending_adds_50 wSt wInp wEnv (by decide) (by decide) (by decide)
    (by decide) (by decide)

/-- Claim C2: for every submission in which any required field (title,
description, severity, location) is empty or the verified flag is false,
submit fails with the validation error and leaves the issue store and the
XP ledger exactly as they were. -/
theorem submit_invalid_validation_error_unchanged
    (st : StoreState) (inp : SubmitInput) (env : SubmitEnv)
    (h : inp.title = "" ∨ inp.description = "" ∨ inp.severity = "" ∨
      inp.location = "" ∨ inp.verified = false) :
    handleSubmit st inp env = .validationError st := by
  rw [handleSubmit, if_pos (by tauto)]

/-- Witness for claim C2 at a concrete submission with an empty title. -/
theorem submit_invalid_witness :
    handleSubmit wSt wInpBad wEnv = .validationError wSt :=
  submit_invalid_validation_error_unchanged wSt wInpBad wEnv (Or.inl rfl)

/-- Claim C3: the priority score agrees with the specification's reference
definition on the three documented severities, and takes the documented
values 3.0, 1.0 and 2.5 on the three documented sample inputs. -/
theorem priorityRating_matches_spec_reference (s d : String)
    (hs : s = "low" ∨ s = "medium" ∨ s = "high") :
    specScore s d = some (calculatePriorityRating s d) ∧
    calculatePriorityRating "high" "" = 3 ∧
    calculatePriorityRating "low" "" = 1 ∧
    calculatePriorityRating "medium" (xRepeat 50) = 5 / 2 := by
  refine ⟨?_, rating_value_high, rating_value_low, rating_value_medium⟩
  rcases hs with rfl | rfl | rfl <;>
    simp [specScore, calculatePriorityRating, severityScore, descriptionScore]

/-- Witness for claim C3 at severity "high" and a concrete description. -/
theorem priorityRating_spec_witness :
    specScore "high" "deep" = some (calculatePriorityRating "high" "deep") ∧
    calculatePriorityRating "high" "" = 3 ∧
    calculatePriorityRating "low" "" = 1 ∧
    calculatePriorityRating "medium" (xRepeat 50) = 5 / 2 :=
  priorityRating_matches_spec_reference "high" "deep" (by decide)

/-- Claim C4: for every documented severity, the priority score is
monotonically non-decreasing in the description length and constant once
the length reaches 200. -/
theorem rating_monotone_and_capped_in_length (s : String)
    (_hs : s = "low" ∨ s = "medium" ∨ s = "high") :
    (∀ L1 L2 : Nat, L1 ≤ L2 →
      calculatePriorityRating s (xRepeat L1) ≤ calculatePriorityRating s (xRepeat L2)) ∧
    (∀ L : Nat, 200 ≤ L →
      calculatePriorityRating s (xRepeat L) = calculatePriorityRating s (xRepeat 200)) := by
  constructor
  · intro L1 L2 h
    rw [calculatePriorityRating, calculatePriorityRating,
      descriptionScore_xRepeat, descriptionScore_xRepeat]
    have hc : (L1 : ℚ) ≤ (L2 : ℚ) := by exact_mod_cast h
    have hmin : min ((L1 : ℚ) / 100) 2 ≤ min ((L2 : ℚ) / 100) 2 := by gcongr
    have hr : round ((severityScore s + min ((L1 : ℚ) / 100) 2) * 10) ≤
        round ((severityScore s + min ((L2 : ℚ) / 100) 2) * 10) :=
      round_mono_rat (by linarith)
    have hrq : ((round ((severityScore s + min ((L1 : ℚ) / 100) 2) * 10) : ℤ) : ℚ) ≤
        ((round ((severityScore s + min ((L2 : ℚ) / 100) 2) * 10) : ℤ) : ℚ) := by
      exact_mod_cast hr
    linarith
  · intro L hL
    have h1 : min ((L : ℚ) / 100) 2 = 2 := by
      apply min_eq_right
      rw [le_div_iff₀ (by norm_num : (0 : ℚ) < 100)]
      have : (200 : ℚ) ≤ (L : ℚ) := by exact_mod_cast hL
      linarith
    have h2 : min (((200 : Nat) : ℚ) / 100) 2 = 2 := by
      apply min_eq_right
      norm_num
    rw [calculatePriorityRating, calculatePriorityRating,
      descriptionScore_xRepeat, descriptionScore_xRepeat, h1, h2]

/-- Witness for claim C4 at severity "low", lengths 5 ≤ 7 and 250 ≥ 200. -/
theorem rating_monotone_witness :
    calculatePriorityRating "low" (xRepeat 5) ≤ calculatePriorityRating "low" (xRepeat 7) ∧
    calculatePriorityRating "low" (xRepeat 250) = calculatePriorityRating "low" (xRepeat 200) :=
  ⟨(rating_monotone_and_capped_in_length "low" (by decide)).1 5 7 (by decide),
   (rating_monotone_and_capped_in_length "low" (by decide)).2 250 (by decide)⟩

/-- Claim C5: the leaderboard computation returns at most 5 users, sorted by
XP points descending; the underlying sort is a permutation of the stored
collection that keeps users of equal XP in their original relative order
(stability); and the fetch is a pure read that hands the store back
unchanged. -/
theorem topCitizens_top5_sorted_stable_pure (cs : List User) :
    topCitizens cs = (cs.mergeSort citizenLE).take 5 ∧
    (topCitizens cs).length ≤ 5 ∧
    (topCitizens cs).Pairwise (fun a b : User => b.xp_points ≤ a.xp_points) ∧
    List.Perm (cs.mergeSort citizenLE) cs ∧
    (∀ a b : User, a.xp_points = b.xp_points → List.Sublist [a, b] cs →
      List.Sublist [a, b] (cs.mergeSort citizenLE)) ∧
    (∀ store : DashboardData, ∀ uid : String, (fetchIssuesRead store uid).2 = store) := by
  refine ⟨rfl, ?_, ?_, List.mergeSort_perm cs citizenLE, ?_, fun _ _ => rfl⟩
  · rw [topCitizens, List.length_take]
    exact min_le_left _ _
  · have hp := List.sorted_mergeSort citizenLE_trans citizenLE_total cs
    have hs : List.Sublist (topCitizens cs) (cs.mergeSort citizenLE) := List.take_sublist _ _
    exact (hp.sublist hs).imp (fun h => by
      simpa [citizenLE, decide_eq_true_eq] using h)
  · intro a b hxp hsub
    exact List.pair_sublist_mergeSort citizenLE_trans citizenLE_total
      (by simp [citizenLE, hxp]) hsub

/-- Witness for claim C5 at a concrete one-citizen collection. -/
theorem topCitizens_witness :
    (topCitizens [wUser]).length ≤ 5 ∧ topCitizens [wUser] = [wUser] :=
  ⟨(topCitizens_top5_sorted_stable_pure [wUser]).2.1, by simp [topCitizens]⟩

/-- Claim C6: the reporter filter returns exactly the issues whose reporter
id matches — membership characterisation plus multiplicity — as a sublist
of the store (hence in original insertion order), and rereading without an
intervening write returns an identical result. -/
theorem listByReporter_exact_ordered_idempotent (issues : List Issue) (uid : String) :
    (∀ i : Issue, i ∈ listByReporter issues uid ↔ i ∈ issues ∧ i.reporter_id = uid) ∧
    List.Sublist (listByReporter issues uid) issues ∧
    (∀ i : Issue, (listByReporter issues uid).count i =
      if i.reporter_id = uid then issues.count i else 0) ∧
    listByReporter issues uid = listByReporter issues uid := by
  refine ⟨?_, List.filter_sublist _, ?_, rfl⟩
  · intro i
    simp [listByReporter]
  · intro i
    by_cases hpi : i.reporter_id = uid
    · rw [if_pos hpi, listByReporter, List.count_filter (by simpa using hpi)]
    · rw [if_neg hpi]
      exact List.count_eq_zero.mpr (by simp [listByReporter, hpi])

/-- Witness for claim C6 at a concrete one-issue store. -/
theorem listByReporter_witness :
    wIssue ∈ listByReporter [wIssue] "u1" ↔ wIssue ∈ [wIssue] ∧ wIssue.reporter_id = "u1" :=
  (listByReporter_exact_ordered_idempotent [wIssue] "u1").1 wIssue

/-- Claim C7, counterexample to the claim as stated: in a store whose
citizens collection is absent but whose issues list holds one issue of the
reporter, the dashboard fetch yields a non-empty issue list (the throw on
the citizens access happens only after the issue list is set), so not
every read yields an empty result. -/
theorem fetch_missing_citizens_counterexample :
    ({ issues := some [wIssue], citizens := none } : DashboardData).citizens = none ∧
    (fetchIssues { issues := some [wIssue], citizens := none } "u1").1.1 ≠ [] :=
  ⟨rfl, by decide⟩

/-- Claim C7 as amended: when the issues collection is absent both reads
yield empty results; when the citizens collection is absent the
leaderboard read yields an empty result; in either case the internally
thrown TypeError is caught (flag true) and no fault escapes the fetch. -/
theorem fetch_missing_collection_tolerated (store : DashboardData) (uid : String) :
    (store.issues = none → fetchIssues store uid = (([], []), true)) ∧
    (store.citizens = none → (fetchIssues store uid).1.2 = []) ∧
    ((store.issues = none ∨ store.citizens = none) → (fetchIssues store uid).2 = true) := by
  obtain ⟨i, c⟩ := store
  cases i <;> cases c <;> simp [fetchIssues]

/-- Witness for the amended claim C7 at a store missing both collections. -/
theorem fetch_missing_witness :
    fetchIssues { issues := none, citizens := none } "u1" = (([], []), true) :=
  (fetch_missing_collection_tolerated { issues := none, citizens := none } "u1").1 rfl

/-- Claim C8, exhibiting the code bug: ids come from
`Math.random().toString()` with no uniqueness check, so two submissions
during which `Math.random()` yields the same value (here 0.5 twice) leave
the store with two issues sharing the id "0.5". -/
theorem duplicate_random_id_collision :
    (((stepState (handleSubmit
        (stepState (handleSubmit { issuesData := none, xp_points := 0 } wInp wEnv))
        wInpB wEnv)).issuesData.getD []).map Issue.id = ["0.5", "0.5"]) ∧
    ¬ ((((stepState (handleSubmit
        (stepState (handleSubmit { issuesData := none, xp_points := 0 } wInp wEnv))
        wInpB wEnv)).issuesData.getD []).map Issue.id).Nodup) := by
  constructor
  · decide
  · decide

/-- Claim C9: a successful submit preserves every previously stored issue
field-for-field and in position, and the resulting list is the old list
with the single new issue appended at the end. -/
theorem submit_preserves_prior_issues
    (st : StoreState) (inp : SubmitInput) (env : SubmitEnv) (st2 : StoreState)
    (h : handleSubmit st inp env = .submitted st2) :
    ∃ issues2, st2.issuesData = some issues2 ∧
      issues2.take (st.issuesData.getD []).length = st.issuesData.getD [] ∧
      issues2.drop (st.issuesData.getD []).length = [mkNewIssue inp env] := by
  rw [handleSubmit] at h
  split at h
  · exact absurd h (by simp)
  · obtain rfl : _ = st2 := congrArg stepState h
    exact ⟨_, rfl, List.take_left _ _, List.drop_left _ _⟩

/-- Witness for claim C9 at a concrete successful submission. -/
theorem submit_preserves_witness :
    ∃ issues2,
      (stepState (handleSubmit wSt wInp wEnv)).issuesData = some issues2 ∧
      issues2.take (wSt.issuesData.getD []).length = wSt.issuesData.getD [] ∧
      issues2.drop (wSt.issuesData.getD []).length = [mkNewIssue wInp wEnv] :=
  submit_preserves_prior_issues wSt wInp wEnv (stepState (handleSubmit wSt wInp wEnv)) rfl

/-- Claim C10: every severity string other than "high" and "medium" gets
severity score 1, so an unrecognized severity is scored exactly like
"low" rather than rejected. -/
theorem unrecognized_severity_scored_as_low (s d : String)
    (h1 : s ≠ "high") (h2 : s ≠ "medium") :
    severityScore s = 1 ∧
    calculatePriorityRating s d = calculatePriorityRating "low" d := by
  have e : severityScore s = 1 := by rw [severityScore, if_neg h1, if_neg h2]
  have e2 : severityScore "low" = 1 := by decide
  exact ⟨e, by rw [calculatePriorityRating, calculatePriorityRating, e, e2]⟩

/-- Witness for claim C10 at the unrecognized severity "banana". -/
theorem unrecognized_severity_witness :
    severityScore "banana" = 1 ∧
    calculatePriorityRating "banana" "pipe" = calculatePriorityRating "low" "pipe" :=
  unrecognized_severity_scored_as_low "banana" "pipe" (by decide) (by decide)

end Greenify
